import Mathlib

/-!
Shallow embedding of the consent/aggregation core of `src/api.py`
(Bank Analytics Platform API).

Python dictionaries are modelled as association lists (`List (String × α)`)
with Python's dict semantics: inserting an existing key overwrites in place,
inserting a fresh key appends, iteration follows that order.  Python floats
are modelled as `ℚ` (every amount in the fixed profile table is an integer,
so all arithmetic in scope is exact).  `datetime.now().isoformat()` is
modelled as an abstract `now : Nat` argument threaded into the operations.
HTTPException(404, d) and HTTPException(400, d) become the two constructors
of `ApiError`.
-/

set_option maxRecDepth 4000

/-- Model of the `Transaction` pydantic model. -/
structure Transaction where
  id : String
  amount : ℚ
  category : String
  date : String
  merchant : String
deriving DecidableEq

/-- Model of the `ClientProfile` pydantic model. -/
structure ClientProfile where
  client_id : String
  client_name : String
  age_group : String
  city : String
  total_balance : ℚ
  transactions : List Transaction
deriving DecidableEq

/-- Model of the `ConsentRequest` pydantic model.  (The extra `last_updated`
key that `manage_consent` adds to the dict is silently dropped by pydantic
when re-validating into `ConsentRequest`, since the model declares no such
field; so the stored record carries exactly these four fields.) -/
structure ConsentRequest where
  client_id : String
  company : String
  data_types : List String
  is_active : Bool
deriving DecidableEq

/-- Values stored in a `metrics` dict: numbers, strings, or the nested
`spending_by_category` mapping. -/
inductive MetricValue where
  | num : ℚ → MetricValue
  | str : String → MetricValue
  | table : List (String × ℚ) → MetricValue
deriving DecidableEq

/-- Model of the `AggregatedData` pydantic model. -/
structure AggregatedData where
  company : String
  data_type : String
  metrics : List (String × MetricValue)
  sample_size : Nat
  generated_at : Nat
deriving DecidableEq

/-- Lookup in a Python-dict-as-association-list (`d[k]` / `k in d`). -/
def dbLookup {α : Type} : List (String × α) → String → Option α
  | [], _ => none
  | (k2, v) :: rest, k => if k2 = k then some v else dbLookup rest k

/-- Python dict assignment `d[k] = v`: overwrite in place if the key exists,
append otherwise. -/
def dbInsert {α : Type} : List (String × α) → String → α → List (String × α)
  | [], k, v => [(k, v)]
  | (k2, v2) :: rest, k, v =>
      if k2 = k then (k, v) :: rest else (k2, v2) :: dbInsert rest k v

/-- Python `del d[k]` (keys are unique, so removing the first match). -/
def dbErase {α : Type} : List (String × α) → String → List (String × α)
  | [], _ => []
  | (k2, v2) :: rest, k => if k2 = k then rest else (k2, v2) :: dbErase rest k

/-- The fixed partner list `COMPANIES`. -/
def COMPANIES : List String :=
  ["Retail Analytics Pro", "FinTech Insights", "Market Research Co",
   "Consumer Trends Lab"]

/-- The fixed data-type enumeration `AVAILABLE_DATA_TYPES`. -/
def AVAILABLE_DATA_TYPES : List String :=
  ["category_spending", "average_bill", "spending_frequency", "geography",
   "age_group_stats"]

/-- The `client_1` profile from `client_profiles_db`. -/
def client1Profile : ClientProfile :=
  { client_id := "client_1", client_name := "Иван Петров", age_group := "25-35",
    city := "Москва", total_balance := 150000,
    transactions :=
      [{ id := "t1", amount := 2500, category := "Рестораны", date := "2024-01-15",
         merchant := "Ресторан \x27Вкусно\x27" },
       { id := "t2", amount := 5000, category := "Супермаркеты", date := "2024-01-14",
         merchant := "Пятерочка" },
       { id := "t3", amount := 12000, category := "Электроника", date := "2024-01-10",
         merchant := "М.Видео" },
       { id := "t4", amount := 3500, category := "Транспорт", date := "2024-01-08",
         merchant := "Яндекс.Такси" },
       { id := "t5", amount := 8000, category := "Развлечения", date := "2024-01-05",
         merchant := "Кинотеатр" }] }

/-- The `client_2` profile from `client_profiles_db`. -/
def client2Profile : ClientProfile :=
  { client_id := "client_2", client_name := "Мария Сидорова", age_group := "35-45",
    city := "Санкт-Петербург", total_balance := 280000,
    transactions :=
      [{ id := "t6", amount := 15000, category := "Одежда", date := "2024-01-16",
         merchant := "ZARA" },
       { id := "t7", amount := 7000, category := "Красота", date := "2024-01-15",
         merchant := "Л\x27Этуаль" },
       { id := "t8", amount := 4500, category := "Кафе", date := "2024-01-12",
         merchant := "Starbucks" },
       { id := "t9", amount := 20000, category := "Путешествия", date := "2024-01-05",
         merchant := "Aeroflot" },
       { id := "t10", amount := 3000, category := "Фитнес", date := "2024-01-03",
         merchant := "World Class" }] }

/-- The `client_3` profile from `client_profiles_db`. -/
def client3Profile : ClientProfile :=
  { client_id := "client_3", client_name := "Алексей Козлов", age_group := "18-25",
    city := "Новосибирск", total_balance := 50000,
    transactions :=
      [{ id := "t11", amount := 1500, category := "Фастфуд", date := "2024-01-17",
         merchant := "McDonald\x27s" },
       { id := "t12", amount := 8000, category := "Электроника", date := "2024-01-15",
         merchant := "DNS" },
       { id := "t13", amount := 2000, category := "Образование", date := "2024-01-10",
         merchant := "Coursera" },
       { id := "t14", amount := 1000, category := "Транспорт", date := "2024-01-08",
         merchant := "Яндекс.Карты" },
       { id := "t15", amount := 4000, category := "Развлечения", date := "2024-01-05",
         merchant := "Steam" }] }

/-- The fixed in-memory profile table `client_profiles_db`. -/
def client_profiles_db : List (String × ClientProfile) :=
  [("client_1", client1Profile), ("client_2", client2Profile),
   ("client_3", client3Profile)]

/-- Mutable module state: the two writable in-memory tables
`consents_db` and `aggregated_data_db`. -/
structure ApiState where
  consents_db : List (String × ConsentRequest)
  aggregated_data_db : List (String × AggregatedData)
deriving DecidableEq

/-- The state at process start: both tables empty (`{}`). -/
def emptyState : ApiState := { consents_db := [], aggregated_data_db := [] }

/-- Error signals raised via `HTTPException`: status 404 (NotFound) and
status 400 (InvalidArgument), each with its detail string. -/
inductive ApiError where
  | notFound : String → ApiError
  | invalidArgument : String → ApiError
deriving DecidableEq

/-- The amounts of a transaction list (`t.amount for t in transactions`). -/
def amountsOf (ts : List Transaction) : List ℚ := ts.map (·.amount)

/-- Python `sum(t.amount for t in transactions)`. -/
def totalAmount (ts : List Transaction) : ℚ := (amountsOf ts).sum

/-- Python `min(...)` over a nonempty list (0 on `[]`, a case the code guards
with `if transactions else 0`). -/
def pyMin : List ℚ → ℚ
  | [] => 0
  | a :: rest => rest.foldl min a

/-- Python `max(...)` over a nonempty list (0 on `[]`, a case the code guards
with `if transactions else 0`). -/
def pyMax : List ℚ → ℚ
  | [] => 0
  | a :: rest => rest.foldl max a

/-- One step of the `category_spending` loop body: `d[c] = d.get(c, 0) + a`,
keeping the position of an existing key, appending a fresh one. -/
def addCat : List (String × ℚ) → String → ℚ → List (String × ℚ)
  | [], c, a => [(c, a)]
  | (c2, v) :: rest, c, a =>
      if c2 = c then (c2, v + a) :: rest else (c2, v) :: addCat rest c a

/-- The `category_spending` dict built by the per-transaction loop in
`generate_aggregated_data`. -/
def categorySpending (ts : List Transaction) : List (String × ℚ) :=
  ts.foldl (fun m t => addCat m t.category t.amount) []

/-- Fold of Python `max(iterable, key=...)` over the remaining pairs:
replaces the current best only on a strictly larger value, so the first
maximal element wins ties. -/
def pickMax (best : String × ℚ) : List (String × ℚ) → String × ℚ
  | [] => best
  | p :: rest => pickMax (if best.2 < p.2 then p else best) rest

/-- Python `max(category_spending, key=category_spending.get) if
category_spending else "Нет данных"`. -/
def topCategoryStr : List (String × ℚ) → String
  | [] => "Нет данных"
  | p :: rest => (pickMax p rest).1

/-- Round-half-to-even to an integer (the semantics of Python `round`). -/
def roundHalfEven (q : ℚ) : ℤ :=
  if q - ⌊q⌋ < 1/2 then ⌊q⌋
  else if 1/2 < q - ⌊q⌋ then ⌊q⌋ + 1
  else if 2 ∣ ⌊q⌋ then ⌊q⌋ else ⌊q⌋ + 1

/-- Python `round(x, 2)`. -/
def round2 (q : ℚ) : ℚ := (roundHalfEven (q * 100) : ℚ) / 100

/-- Python `total_amount / len(transactions) if transactions else 0`. -/
def averageBill (ts : List Transaction) : ℚ :=
  if ts.isEmpty then 0 else totalAmount ts / (ts.length : ℚ)

/-- The `category_spending` dataset built by `generate_aggregated_data`
(the effective, second definition in the file, which shadows the first). -/
def categoriesDataset (now : Nat) (company : String) (p : ClientProfile) :
    AggregatedData :=
  { company := company, data_type := "category_spending",
    metrics :=
      [("spending_by_category", .table (categorySpending p.transactions)),
       ("top_category", .str (topCategoryStr (categorySpending p.transactions))),
       ("total_categories", .num ((categorySpending p.transactions).length : ℚ)),
       ("total_spent", .num (totalAmount p.transactions))],
    sample_size := 1, generated_at := now }

/-- The `average_bill` dataset built by `generate_aggregated_data`. -/
def averageDataset (now : Nat) (company : String) (p : ClientProfile) :
    AggregatedData :=
  { company := company, data_type := "average_bill",
    metrics :=
      [("average_transaction_amount", .num (round2 (averageBill p.transactions))),
       ("min_amount", .num (pyMin (amountsOf p.transactions))),
       ("max_amount", .num (pyMax (amountsOf p.transactions))),
       ("total_transactions", .num (p.transactions.length : ℚ)),
       ("total_amount", .num (totalAmount p.transactions))],
    sample_size := 1, generated_at := now }

/-- The `age_group_stats` dataset built by `generate_aggregated_data`. -/
def demographicsDataset (now : Nat) (company : String) (p : ClientProfile) :
    AggregatedData :=
  { company := company, data_type := "age_group_stats",
    metrics :=
      [("age_group", .str p.age_group),
       ("city", .str p.city),
       ("average_balance", .num p.total_balance),
       ("client_count", .num 1)],
    sample_size := 1, generated_at := now }

/-- `generate_aggregated_data(client_id, company)`: silent no-op for an
unknown client, otherwise stores the three datasets under
`{client_id}_{company}_categories` / `_average` / `_demographics`. -/
def generate_aggregated_data (now : Nat) (client_id company : String)
    (s : ApiState) : ApiState :=
  match dbLookup client_profiles_db client_id with
  | none => s
  | some p =>
      let data_key := client_id ++ "_" ++ company
      let db1 := dbInsert s.aggregated_data_db (data_key ++ "_categories")
        (categoriesDataset now company p)
      let db2 := dbInsert db1 (data_key ++ "_average")
        (averageDataset now company p)
      let db3 := dbInsert db2 (data_key ++ "_demographics")
        (demographicsDataset now company p)
      { s with aggregated_data_db := db3 }

/-- Success payload of `POST /consent`. -/
structure ConsentResponse where
  message : String
  consent_id : String
  consent : ConsentRequest
deriving DecidableEq

/-- `manage_consent(consent_request)`: 404 for an unknown client, 400 for the
first data type outside `AVAILABLE_DATA_TYPES`, otherwise upsert under
`{client_id}_{company}` and, when `is_active`, run the aggregation. -/
def manage_consent (now : Nat) (req : ConsentRequest) (s : ApiState) :
    ApiState × Except ApiError ConsentResponse :=
  if (dbLookup client_profiles_db req.client_id).isNone then
    (s, .error (.notFound "Клиент не найден"))
  else
    match req.data_types.find? (fun dt => decide (dt ∉ AVAILABLE_DATA_TYPES)) with
    | some dt => (s, .error (.invalidArgument ("Неверный тип данных: " ++ dt)))
    | none =>
        let consent_id := req.client_id ++ "_" ++ req.company
        let s1 : ApiState :=
          { s with consents_db := dbInsert s.consents_db consent_id req }
        let s2 :=
          if req.is_active then
            generate_aggregated_data now req.client_id req.company s1
          else s1
        (s2, .ok { message := "Согласие успешно обновлено",
                   consent_id := consent_id, consent := req })

/-- `revoke_consent(consent_id)`: 404 if the key is absent; otherwise deletes
the grant, then deletes the key `{consent_id}_aggregated` from
`aggregated_data_db` when present (the unused `company = ...split('_')[-1]`
of the source is dead code and omitted). -/
def revoke_consent (consent_id : String) (s : ApiState) :
    ApiState × Except ApiError String :=
  if (dbLookup s.consents_db consent_id).isSome then
    let s1 : ApiState := { s with consents_db := dbErase s.consents_db consent_id }
    let data_key := consent_id ++ "_aggregated"
    let s2 : ApiState :=
      if (dbLookup s1.aggregated_data_db data_key).isSome then
        { s1 with aggregated_data_db := dbErase s1.aggregated_data_db data_key }
      else s1
    (s2, .ok "Согласие полностью отозвано")
  else (s, .error (.notFound "Согласие не найдено"))

/-- Result of `GET /aggregated-data/{company}`: either the no-data response
`{"message": ..., "data": []}` or the populated one. -/
inductive AggReadResult where
  | noData : String → List AggregatedData → AggReadResult
  | found : String → Nat → List AggregatedData → AggReadResult
deriving DecidableEq

/-- The datasets carried by either variant of the read response. -/
def AggReadResult.payload : AggReadResult → List AggregatedData
  | .noData _ d => d
  | .found _ _ d => d

/-- The stored datasets whose `company` field matches (`company_data`). -/
def companyData (company : String) (s : ApiState) : List AggregatedData :=
  (s.aggregated_data_db.map (·.2)).filter (fun d => d.company = company)

/-- `get_aggregated_data(company)`: 400 for a company outside `COMPANIES`;
otherwise every stored dataset whose `company` field matches, with the
descriptive no-data message when none does. -/
def get_aggregated_data (company : String) (s : ApiState) :
    Except ApiError AggReadResult :=
  if company ∈ COMPANIES then
    let cd := companyData company s
    if cd.isEmpty then .ok (.noData "Нет доступных данных для этой компании" [])
    else .ok (.found company cd.length cd)
  else .error (.invalidArgument "Компания не найдена")

/-! ### Lemmas about the dictionary model -/

theorem dbLookup_dbInsert_self {α : Type} (db : List (String × α)) (k : String)
    (v : α) : dbLookup (dbInsert db k v) k = some v := by
  induction db with
  | nil => simp [dbInsert, dbLookup]
  | cons hd tl ih =>
      obtain ⟨k2, v2⟩ := hd
      by_cases h : k2 = k <;> simp [dbInsert, dbLookup, h, ih]

theorem dbLookup_dbInsert_ne {α : Type} (db : List (String × α)) {k k' : String}
    (v : α) (h : k' ≠ k) : dbLookup (dbInsert db k v) k' = dbLookup db k' := by
  induction db with
  | nil => simp [dbInsert, dbLookup, Ne.symm h]
  | cons hd tl ih =>
      obtain ⟨k2, v2⟩ := hd
      by_cases h2 : k2 = k
      · subst h2
        simp [dbInsert, dbLookup, Ne.symm h]
      · by_cases h3 : k2 = k' <;> simp [dbInsert, dbLookup, h2, h3, ih, Ne.symm h, h]

/-- Appending suffixes of different lengths to the same string yields
different strings (used for the `_categories`/`_average`/`_demographics` and
`_aggregated` key suffixes). -/
theorem append_ne_of_length_ne (k : String) {a b : String}
    (h : a.length ≠ b.length) : k ++ a ≠ k ++ b := by
  intro hab
  apply h
  have := congrArg String.length hab
  simpa [String.length_append] using this

/-! ### Lemmas about the numeric helpers -/

theorem foldl_min_le_init (l : List ℚ) : ∀ b : ℚ, l.foldl min b ≤ b := by
  induction l with
  | nil => intro b; simp
  | cons a t ih => intro b; exact le_trans (ih (min b a)) (min_le_left b a)

theorem foldl_min_le (l : List ℚ) : ∀ b a : ℚ, a ∈ l → l.foldl min b ≤ a := by
  induction l with
  | nil => intro _ _ ha; cases ha
  | cons hd t ih =>
      intro b a ha
      rcases List.mem_cons.1 ha with h | h
      · subst h
        exact le_trans (foldl_min_le_init t (min b a)) (min_le_right b a)
      · exact ih (min b hd) a h

theorem foldl_min_mem (l : List ℚ) :
    ∀ b : ℚ, l.foldl min b = b ∨ l.foldl min b ∈ l := by
  induction l with
  | nil => intro b; left; rfl
  | cons hd t ih =>
      intro b
      rcases ih (min b hd) with h | h
      · simp only [List.foldl_cons]
        rcases min_cases b hd with ⟨h2, _⟩ | ⟨h2, _⟩
        · left; rw [h, h2]
        · right; rw [h, h2]; exact List.mem_cons_self _ _
      · right; exact List.mem_cons_of_mem _ h

theorem pyMin_le {l : List ℚ} {a : ℚ} (ha : a ∈ l) : pyMin l ≤ a := by
  cases l with
  | nil => cases ha
  | cons hd t =>
      rcases List.mem_cons.1 ha with h | h
      · subst h; exact foldl_min_le_init t a
      · exact foldl_min_le t hd a h

theorem pyMin_mem {l : List ℚ} (h : l ≠ []) : pyMin l ∈ l := by
  cases l with
  | nil => exact absurd rfl h
  | cons hd t =>
      rcases foldl_min_mem t hd with h2 | h2
      · rw [pyMin, h2]; exact List.mem_cons_self _ _
      · exact List.mem_cons_of_mem _ h2

theorem foldl_max_init_le (l : List ℚ) : ∀ b : ℚ, b ≤ l.foldl max b := by
  induction l with
  | nil => intro b; simp
  | cons a t ih => intro b; exact le_trans (le_max_left b a) (ih (max b a))

theorem foldl_le_max (l : List ℚ) : ∀ b a : ℚ, a ∈ l → a ≤ l.foldl max b := by
  induction l with
  | nil => intro _ _ ha; cases ha
  | cons hd t ih =>
      intro b a ha
      rcases List.mem_cons.1 ha with h | h
      · subst h
        exact le_trans (le_max_right b a) (foldl_max_init_le t (max b a))
      · exact ih (max b hd) a h

theorem foldl_max_mem (l : List ℚ) :
    ∀ b : ℚ, l.foldl max b = b ∨ l.foldl max b ∈ l := by
  induction l with
  | nil => intro b; left; rfl
  | cons hd t ih =>
      intro b
      rcases ih (max b hd) with h | h
      · simp only [List.foldl_cons]
        rcases max_cases b hd with ⟨h2, _⟩ | ⟨h2, _⟩
        · left; rw [h, h2]
        · right; rw [h, h2]; exact List.mem_cons_self _ _
      · right; exact List.mem_cons_of_mem _ h

theorem le_pyMax {l : List ℚ} {a : ℚ} (ha : a ∈ l) : a ≤ pyMax l := by
  cases l with
  | nil => cases ha
  | cons hd t =>
      rcases List.mem_cons.1 ha with h | h
      · subst h; exact foldl_max_init_le t a
      · exact foldl_le_max t hd a h

theorem pyMax_mem {l : List ℚ} (h : l ≠ []) : pyMax l ∈ l := by
  cases l with
  | nil => exact absurd rfl h
  | cons hd t =>
      rcases foldl_max_mem t hd with h2 | h2
      · rw [pyMax, h2]; exact List.mem_cons_self _ _
      · exact List.mem_cons_of_mem _ h2

/-! ### Claim C9: the built-in `client_1` example figures -/

/-- C9: for the built-in client `client_1`, whose transaction amounts are
[2500, 5000, 12000, 3500, 8000] over 5 distinct categories, the aggregation
pipeline stores an average-bill dataset reporting average 6200, max 12000,
min 2500 and total 31000, and a category dataset reporting 5 distinct
categories. -/
theorem claim_C9_builtin_example :
    amountsOf client1Profile.transactions = [2500, 5000, 12000, 3500, 8000] ∧
    dbLookup client_profiles_db "client_1" = some client1Profile ∧
    dbLookup
      (generate_aggregated_data 0 "client_1" "Retail Analytics Pro"
        emptyState).aggregated_data_db "client_1_Retail Analytics Pro_average"
      = some (averageDataset 0 "Retail Analytics Pro" client1Profile) ∧
    dbLookup (averageDataset 0 "Retail Analytics Pro" client1Profile).metrics
      "average_transaction_amount" = some (.num 6200) ∧
    dbLookup (averageDataset 0 "Retail Analytics Pro" client1Profile).metrics
      "max_amount" = some (.num 12000) ∧
    dbLookup (averageDataset 0 "Retail Analytics Pro" client1Profile).metrics
      "min_amount" = some (.num 2500) ∧
    dbLookup (averageDataset 0 "Retail Analytics Pro" client1Profile).metrics
      "total_amount" = some (.num 31000) ∧
    dbLookup
      (generate_aggregated_data 0 "client_1" "Retail Analytics Pro"
        emptyState).aggregated_data_db
      "client_1_Retail Analytics Pro_categories"
      = some (categoriesDataset 0 "Retail Analytics Pro" client1Profile) ∧
    dbLookup (categoriesDataset 0 "Retail Analytics Pro" client1Profile).metrics
      "total_categories" = some (.num 5) := by
  refine ⟨rfl, rfl, rfl, ?_, ?_, ?_, ?_, rfl, ?_⟩
  · simp [averageDataset, dbLookup, averageBill, totalAmount, amountsOf,
      client1Profile, round2, roundHalfEven]
    norm_num
  · simp [averageDataset, dbLookup, pyMax, amountsOf, client1Profile]
    norm_num [max_def]
  · simp [averageDataset, dbLookup, pyMin, amountsOf, client1Profile]
    norm_num [min_def]
  · simp [averageDataset, dbLookup, totalAmount, amountsOf, client1Profile]
    norm_num
  · simp [categoriesDataset, dbLookup, categorySpending, addCat, client1Profile]

/-! ### Claim C1: revoking a consent does not delete its aggregates -/

/-- C1 (refuting the claimed behaviour; the code's own comment announces the
deletion of the corresponding aggregated data, but the key it deletes,
`{consent_id}_aggregated`, is never a stored key): after upserting an active
consent for `client_1` and `Retail Analytics Pro` from the empty state, a
successful revoke of `client_1_Retail Analytics Pro` deletes the grant but
leaves all three AggregatedDataset records in place, and a subsequent
aggregate read for that company still returns all three datasets of that
client. -/
theorem claim_C1_revoke_leaves_aggregates :
    (revoke_consent "client_1_Retail Analytics Pro"
        (manage_consent 0
          { client_id := "client_1", company := "Retail Analytics Pro",
            data_types := ["category_spending"], is_active := true }
          emptyState).1).2 = .ok "Согласие полностью отозвано" ∧
    (revoke_consent "client_1_Retail Analytics Pro"
        (manage_consent 0
          { client_id := "client_1", company := "Retail Analytics Pro",
            data_types := ["category_spending"], is_active := true }
          emptyState).1).1.consents_db = [] ∧
    ((revoke_consent "client_1_Retail Analytics Pro"
        (manage_consent 0
          { client_id := "client_1", company := "Retail Analytics Pro",
            data_types := ["category_spending"], is_active := true }
          emptyState).1).1.aggregated_data_db.map (·.1)) =
      ["client_1_Retail Analytics Pro_categories",
       "client_1_Retail Analytics Pro_average",
       "client_1_Retail Analytics Pro_demographics"] ∧
    get_aggregated_data "Retail Analytics Pro"
        (revoke_consent "client_1_Retail Analytics Pro"
          (manage_consent 0
            { client_id := "client_1", company := "Retail Analytics Pro",
              data_types := ["category_spending"], is_active := true }
            emptyState).1).1
      = .ok (.found "Retail Analytics Pro" 3
          [categoriesDataset 0 "Retail Analytics Pro" client1Profile,
           averageDataset 0 "Retail Analytics Pro" client1Profile,
           demographicsDataset 0 "Retail Analytics Pro" client1Profile]) :=
  ⟨rfl, rfl, rfl, rfl⟩

/-! ### Characterization of the category-spending aggregation -/

/-- Sum of the amounts of the transactions in category `c`. -/
def catSum (c : String) (ts : List Transaction) : ℚ :=
  ((ts.filter (fun t => decide (t.category = c))).map (·.amount)).sum

/-- Whether some transaction carries category `c`. -/
def hasCat (c : String) (ts : List Transaction) : Bool :=
  ts.any (fun t => decide (t.category = c))

theorem dbLookup_addCat (m : List (String × ℚ)) (c : String) (a : ℚ)
    (c' : String) :
    dbLookup (addCat m c a) c'
      = if c = c' then some ((dbLookup m c).getD 0 + a) else dbLookup m c' := by
  induction m with
  | nil =>
      by_cases h : c = c' <;> simp [addCat, dbLookup, h]
  | cons hd tl ih =>
      obtain ⟨k2, v2⟩ := hd
      by_cases h2 : k2 = c
      · subst h2
        by_cases h : k2 = c' <;> simp [addCat, dbLookup, h]
      · by_cases h3 : k2 = c'
        · subst h3
          simp [addCat, dbLookup, h2, Ne.symm h2]
        · simp [addCat, dbLookup, h2, h3, ih]

theorem dbLookup_categoryFold (ts : List Transaction) :
    ∀ (m : List (String × ℚ)) (c : String),
      dbLookup (ts.foldl (fun m2 t => addCat m2 t.category t.amount) m) c
        = if (hasCat c ts || (dbLookup m c).isSome)
          then some ((dbLookup m c).getD 0 + catSum c ts) else none := by
  induction ts with
  | nil =>
      intro m c
      cases h : dbLookup m c <;> simp [hasCat, catSum, h]
  | cons t ts ih =>
      intro m c
      simp only [List.foldl_cons]
      rw [ih (addCat m t.category t.amount) c]
      by_cases hc : t.category = c
      · have hl : dbLookup (addCat m t.category t.amount) c
            = some ((dbLookup m c).getD 0 + t.amount) := by
          rw [dbLookup_addCat, if_pos hc, hc]
        rw [hl]
        have hcat : hasCat c (t :: ts) = true := by simp [hasCat, hc]
        have hsum : catSum c (t :: ts) = t.amount + catSum c ts := by
          simp [catSum, hc]
        simp [hcat, hsum, add_assoc]
      · have hl : dbLookup (addCat m t.category t.amount) c = dbLookup m c := by
          rw [dbLookup_addCat, if_neg hc]
        rw [hl]
        have hcat : hasCat c (t :: ts) = hasCat c ts := by simp [hasCat, hc]
        have hsum : catSum c (t :: ts) = catSum c ts := by simp [catSum, hc]
        rw [hcat, hsum]

/-- The `spending_by_category` mapping sends each occurring category to the
sum of that category's amounts and no other key to anything. -/
theorem dbLookup_categorySpending (ts : List Transaction) (c : String) :
    dbLookup (categorySpending ts) c
      = if hasCat c ts then some (catSum c ts) else none := by
  rw [categorySpending, dbLookup_categoryFold ts [] c]
  simp [dbLookup]

/-- The mapping, read as a function of the category, does not depend on the
order of the transaction list. -/
theorem dbLookup_categorySpending_perm {ts ts' : List Transaction}
    (h : ts'.Perm ts) (c : String) :
    dbLookup (categorySpending ts') c = dbLookup (categorySpending ts) c := by
  rw [dbLookup_categorySpending, dbLookup_categorySpending]
  have hcat : hasCat c ts' = hasCat c ts := by
    rw [hasCat, hasCat, Bool.eq_iff_iff]
    simp only [List.any_eq_true]
    constructor
    · rintro ⟨t, ht, hc2⟩; exact ⟨t, (List.Perm.mem_iff h).1 ht, hc2⟩
    · rintro ⟨t, ht, hc2⟩; exact ⟨t, (List.Perm.mem_iff h).2 ht, hc2⟩
  have hsum : catSum c ts' = catSum c ts := by
    simp only [catSum]
    exact List.Perm.sum_eq (List.Perm.map _ (List.Perm.filter _ h))
  rw [hcat, hsum]

theorem mem_keys_iff_isSome {α : Type} (m : List (String × α)) (k : String) :
    k ∈ m.map (·.1) ↔ (dbLookup m k).isSome := by
  induction m with
  | nil => simp [dbLookup]
  | cons hd tl ih =>
      obtain ⟨k2, v⟩ := hd
      by_cases h : k2 = k
      · subst h; simp [dbLookup]
      · simp [dbLookup, h, ih, Ne.symm h]

theorem keys_addCat (m : List (String × ℚ)) (c : String) (a : ℚ) :
    (addCat m c a).map (·.1)
      = if c ∈ m.map (·.1) then m.map (·.1) else m.map (·.1) ++ [c] := by
  induction m with
  | nil => simp [addCat]
  | cons hd tl ih =>
      obtain ⟨k2, v2⟩ := hd
      by_cases h : k2 = c
      · subst h; simp [addCat]
      · by_cases hm : c ∈ tl.map (·.1) <;>
          simp [addCat, h, ih, hm, Ne.symm h]

theorem nodup_keys_categoryFold (ts : List Transaction) :
    ∀ m : List (String × ℚ), (m.map (·.1)).Nodup →
      ((ts.foldl (fun m2 t => addCat m2 t.category t.amount) m).map (·.1)).Nodup := by
  induction ts with
  | nil => intro m h; exact h
  | cons t ts ih =>
      intro m h
      apply ih
      rw [keys_addCat]
      split
      · exact h
      · rename_i hnot
        simp only [List.nodup_append, List.nodup_cons, List.nodup_nil,
          List.disjoint_singleton]
        exact ⟨h, ⟨by simp, by simp⟩, hnot⟩

theorem isSome_lookup_categorySpending (ts : List Transaction) (k : String) :
    (dbLookup (categorySpending ts) k).isSome = hasCat k ts := by
  rw [dbLookup_categorySpending]
  by_cases h : hasCat k ts <;> simp [h]

/-- The number of entries of the `spending_by_category` mapping is the number
of distinct categories occurring in the transaction list. -/
theorem length_categorySpending (ts : List Transaction) :
    (categorySpending ts).length = (ts.map (·.category)).toFinset.card := by
  have hnd : ((categorySpending ts).map (·.1)).Nodup :=
    nodup_keys_categoryFold ts [] (by simp)
  have hlen : (categorySpending ts).length
      = ((categorySpending ts).map (·.1)).length := (List.length_map _ _).symm
  rw [hlen, ← List.toFinset_card_of_nodup hnd]
  congr 1
  apply Finset.ext
  intro k
  rw [List.mem_toFinset, List.mem_toFinset, mem_keys_iff_isSome,
    isSome_lookup_categorySpending, hasCat, List.any_eq_true]
  simp only [decide_eq_true_eq, List.mem_map]

theorem pickMax_eq_find (l : List (String × ℚ)) :
    ∀ best : String × ℚ,
      (best :: l).find? (fun q => decide (q.2 = (l.map (·.2)).foldl max best.2))
        = some (pickMax best l) := by
  induction l with
  | nil =>
      intro best
      simp [pickMax]
  | cons q rest ih =>
      intro best
      by_cases hq : best.2 < q.2
      · have hmax : max best.2 q.2 = q.2 := max_eq_right (le_of_lt hq)
        have hM : ((q :: rest).map (·.2)).foldl max best.2
            = (rest.map (·.2)).foldl max q.2 := by
          simp [hmax]
        have hbest : best.2 ≠ (rest.map (·.2)).foldl max q.2 :=
          ne_of_lt (lt_of_lt_of_le hq (foldl_max_init_le _ q.2))
        rw [hM, List.find?_cons_of_neg _
            (by simp only [decide_eq_true_eq]; exact hbest),
          show pickMax best (q :: rest) = pickMax q rest by simp [pickMax, hq]]
        exact ih q
      · have hle : q.2 ≤ best.2 := le_of_not_lt hq
        have hmax : max best.2 q.2 = best.2 := max_eq_left hle
        have hM : ((q :: rest).map (·.2)).foldl max best.2
            = (rest.map (·.2)).foldl max best.2 := by
          simp [hmax]
        rw [hM, show pickMax best (q :: rest) = pickMax best rest by
          simp [pickMax, hq]]
        by_cases hb : best.2 = (rest.map (·.2)).foldl max best.2
        · rw [List.find?_cons_of_pos _
            (by simp only [decide_eq_true_eq]; exact hb)]
          have h2 := ih best
          rw [List.find?_cons_of_pos _
            (by simp only [decide_eq_true_eq]; exact hb)] at h2
          exact h2
        · have hblt : best.2 < (rest.map (·.2)).foldl max best.2 :=
            lt_of_le_of_ne (foldl_max_init_le _ best.2) hb
          have hqne : q.2 ≠ (rest.map (·.2)).foldl max best.2 :=
            ne_of_lt (lt_of_le_of_lt hle hblt)
          rw [List.find?_cons_of_neg _
              (by simp only [decide_eq_true_eq]; exact hb),
            List.find?_cons_of_neg _
              (by simp only [decide_eq_true_eq]; exact hqne)]
          have h2 := ih best
          rw [List.find?_cons_of_neg _
            (by simp only [decide_eq_true_eq]; exact hb)] at h2
          exact h2

/-- Python's `max(d, key=d.get)` returns the first key (in mapping order)
whose value attains the maximum of all values. -/
theorem topCategoryStr_spec (cs : List (String × ℚ)) :
    topCategoryStr cs
      = ((cs.find? (fun q => decide (q.2 = pyMax (cs.map (·.2))))).map
          (·.1)).getD "Нет данных" := by
  cases cs with
  | nil => rfl
  | cons best rest =>
      have h2 : pyMax ((best :: rest).map (·.2))
          = (rest.map (·.2)).foldl max best.2 := by
        simp [pyMax]
      rw [h2, pickMax_eq_find rest best]
      rfl

/-! ### Claim C4: the category-spend dataset -/

/-- C4: for every client profile, the category-spend dataset reports the
mapping from each occurring category to the sum of that category's amounts
(and the mapping, read as a function of the category, is independent of the
transaction order); `top_category` is the first category in mapping order
whose summed amount attains the maximum of all summed amounts (every entry's
amount is bounded by that maximum); `total_categories` is the count of
distinct categories; and `total_spent` is the grand total of all amounts. -/
theorem claim_C4_category_spend_dataset (now : Nat) (company : String)
    (p : ClientProfile) :
    dbLookup (categoriesDataset now company p).metrics "spending_by_category"
      = some (.table (categorySpending p.transactions)) ∧
    (∀ c, dbLookup (categorySpending p.transactions) c
        = if hasCat c p.transactions then some (catSum c p.transactions)
          else none) ∧
    (∀ ts', ts'.Perm p.transactions → ∀ c,
        dbLookup (categorySpending ts') c
          = dbLookup (categorySpending p.transactions) c) ∧
    dbLookup (categoriesDataset now company p).metrics "top_category"
      = some (.str ((((categorySpending p.transactions).find?
          (fun q => decide (q.2 = pyMax ((categorySpending p.transactions).map
            (·.2))))).map (·.1)).getD "Нет данных")) ∧
    (∀ q ∈ categorySpending p.transactions,
        q.2 ≤ pyMax ((categorySpending p.transactions).map (·.2))) ∧
    dbLookup (categoriesDataset now company p).metrics "total_categories"
      = some (.num (((p.transactions.map (·.category)).toFinset.card : ℚ))) ∧
    dbLookup (categoriesDataset now company p).metrics "total_spent"
      = some (.num (totalAmount p.transactions)) := by
  refine ⟨rfl, fun c => dbLookup_categorySpending _ c,
    fun ts' h c => dbLookup_categorySpending_perm h c, ?_, ?_, ?_, rfl⟩
  · rw [show dbLookup (categoriesDataset now company p).metrics "top_category"
        = some (.str (topCategoryStr (categorySpending p.transactions)))
        from rfl, topCategoryStr_spec]
  · intro q hq
    exact le_pyMax (List.mem_map_of_mem _ hq)
  · rw [show dbLookup (categoriesDataset now company p).metrics
          "total_categories"
        = some (.num (((categorySpending p.transactions).length : ℚ)))
        from rfl, length_categorySpending]

/-- Witness for C4: instantiated at `client_1`, a reversed transaction list
(a permutation of the original) and the category "Рестораны". -/
theorem claim_C4_witness :
    dbLookup (categorySpending client1Profile.transactions.reverse) "Рестораны"
      = dbLookup (categorySpending client1Profile.transactions) "Рестораны" :=
  (claim_C4_category_spend_dataset 0 "Retail Analytics Pro"
    client1Profile).2.2.1 client1Profile.transactions.reverse
    (List.reverse_perm _) "Рестораны"

/-! ### Claim C3: the average-bill dataset -/

/-- C3: the average-bill dataset of every client in the profile table reports
exactly the arithmetic mean (total divided by count) of the transaction
amounts, together with the minimum, maximum, count, and total of the amounts
(for every profile with transactions, the reported min/max are attained
amounts bounding all amounts); for a profile with an empty transaction list
the reported mean, min and max are all 0, and the aggregation is a total
function, so no division-by-zero error can be raised. -/
theorem claim_C3_average_bill_dataset :
    (∀ cid p, dbLookup client_profiles_db cid = some p → ∀ now company,
      dbLookup (averageDataset now company p).metrics
          "average_transaction_amount"
        = some (.num (totalAmount p.transactions
            / (p.transactions.length : ℚ)))) ∧
    (∀ now company p,
      dbLookup (averageDataset now company p).metrics "min_amount"
        = some (.num (pyMin (amountsOf p.transactions))) ∧
      dbLookup (averageDataset now company p).metrics "max_amount"
        = some (.num (pyMax (amountsOf p.transactions))) ∧
      dbLookup (averageDataset now company p).metrics "total_transactions"
        = some (.num ((p.transactions.length : ℚ))) ∧
      dbLookup (averageDataset now company p).metrics "total_amount"
        = some (.num (totalAmount p.transactions))) ∧
    (∀ p : ClientProfile, p.transactions ≠ [] →
      pyMin (amountsOf p.transactions) ∈ amountsOf p.transactions ∧
      (∀ a ∈ amountsOf p.transactions, pyMin (amountsOf p.transactions) ≤ a) ∧
      pyMax (amountsOf p.transactions) ∈ amountsOf p.transactions ∧
      (∀ a ∈ amountsOf p.transactions, a ≤ pyMax (amountsOf p.transactions))) ∧
    (∀ now company p, p.transactions = [] →
      dbLookup (averageDataset now company p).metrics
        "average_transaction_amount" = some (.num 0) ∧
      dbLookup (averageDataset now company p).metrics "min_amount"
        = some (.num 0) ∧
      dbLookup (averageDataset now company p).metrics "max_amount"
        = some (.num 0)) := by
  refine ⟨?_, ?_, ?_, ?_⟩
  · intro cid p h now company
    simp only [client_profiles_db, dbLookup] at h
    split at h
    · obtain rfl := Option.some.inj h
      simp [averageDataset, dbLookup, averageBill, totalAmount, amountsOf,
        client1Profile, round2, roundHalfEven]
      norm_num
    · split at h
      · obtain rfl := Option.some.inj h
        simp [averageDataset, dbLookup, averageBill, totalAmount, amountsOf,
          client2Profile, round2, roundHalfEven]
        norm_num
      · split at h
        · obtain rfl := Option.some.inj h
          simp [averageDataset, dbLookup, averageBill, totalAmount, amountsOf,
            client3Profile, round2, roundHalfEven]
          norm_num
        · exact absurd h (by simp)
  · intro now company p
    exact ⟨rfl, rfl, rfl, rfl⟩
  · intro p hne
    have hA : amountsOf p.transactions ≠ [] := by
      simpa [amountsOf] using hne
    exact ⟨pyMin_mem hA, fun a ha => pyMin_le ha, pyMax_mem hA,
      fun a ha => le_pyMax ha⟩
  · intro now company p h
    refine ⟨?_, ?_, ?_⟩ <;>
      simp [averageDataset, dbLookup, averageBill, totalAmount, amountsOf, h,
        pyMin, pyMax, round2, roundHalfEven]

/-- Witness for C3: instantiated at `client_1` (stored profile, mean reported
exactly) and at a profile with no transactions (all three figures 0). -/
theorem claim_C3_witness :
    (dbLookup (averageDataset 0 "Retail Analytics Pro" client1Profile).metrics
        "average_transaction_amount"
      = some (.num (totalAmount client1Profile.transactions
          / (client1Profile.transactions.length : ℚ)))) ∧
    (dbLookup (averageDataset 0 "Retail Analytics Pro"
        { client_id := "c", client_name := "n", age_group := "a", city := "c",
          total_balance := 0, transactions := [] }).metrics
        "average_transaction_amount" = some (.num 0)) :=
  ⟨claim_C3_average_bill_dataset.1 "client_1" client1Profile rfl 0
      "Retail Analytics Pro",
    (claim_C3_average_bill_dataset.2.2.2 0 "Retail Analytics Pro"
      { client_id := "c", client_name := "n", age_group := "a", city := "c",
        total_balance := 0, transactions := [] } rfl).1⟩

/-! ### Claim C5: the consent-upsert error contract -/

/-- C5 (amended): the upsert fails with NotFound iff the client id is not in
the profile table, and fails with InvalidArgument iff the client id is in the
profile table and some entry of `data_types` lies outside the enumerated set
(the unknown-client check runs first, so an unknown client with bad data
types yields NotFound, not InvalidArgument); on every failure the state is
returned unchanged, and a failed revoke changes nothing either. -/
theorem claim_C5_amended_error_contract (now : Nat) (req : ConsentRequest)
    (cid : String) (s : ApiState) :
    ((∃ d, (manage_consent now req s).2 = .error (.notFound d))
        ↔ dbLookup client_profiles_db req.client_id = none) ∧
    ((∃ d, (manage_consent now req s).2 = .error (.invalidArgument d))
        ↔ ((dbLookup client_profiles_db req.client_id).isSome ∧
            ∃ dt ∈ req.data_types, dt ∉ AVAILABLE_DATA_TYPES)) ∧
    (∀ e, (manage_consent now req s).2 = .error e
        → (manage_consent now req s).1 = s) ∧
    (∀ e, (revoke_consent cid s).2 = .error e
        → (revoke_consent cid s).1 = s) := by
  have hrev : ∀ e, (revoke_consent cid s).2 = .error e
      → (revoke_consent cid s).1 = s := by
    intro e he
    by_cases h : (dbLookup s.consents_db cid).isSome
    · simp [revoke_consent, h] at he
    · simp [revoke_consent, h]
  by_cases hc : dbLookup client_profiles_db req.client_id = none
  · have hres : manage_consent now req s
        = (s, .error (.notFound "Клиент не найден")) := by
      rw [manage_consent, if_pos (Option.isNone_iff_eq_none.2 hc)]
    refine ⟨?_, ?_, ?_, hrev⟩
    · rw [hres]
      exact ⟨fun _ => hc, fun _ => ⟨_, rfl⟩⟩
    · rw [hres]
      constructor
      · rintro ⟨d, hd⟩; simp at hd
      · rintro ⟨hsome, -⟩
        rw [hc] at hsome; simp at hsome
    · intro e _; rw [hres]
  · have hcb : ¬ ((dbLookup client_profiles_db req.client_id).isNone = true) :=
      fun hh => hc (Option.isNone_iff_eq_none.1 hh)
    have hsome : (dbLookup client_profiles_db req.client_id).isSome := by
      rcases Option.ne_none_iff_exists.1 hc with ⟨p, hp⟩
      rw [← hp]; rfl
    cases hfind : req.data_types.find?
        (fun dt => decide (dt ∉ AVAILABLE_DATA_TYPES)) with
    | some dt =>
        have hres : manage_consent now req s
            = (s, .error (.invalidArgument ("Неверный тип данных: " ++ dt))) := by
          rw [manage_consent, if_neg hcb, hfind]
        have hmem : dt ∈ req.data_types := List.mem_of_find?_eq_some hfind
        have hbad : dt ∉ AVAILABLE_DATA_TYPES := by
          have := List.find?_some hfind
          simpa using this
        refine ⟨?_, ?_, ?_, hrev⟩
        · rw [hres]
          constructor
          · rintro ⟨d, hd⟩; simp at hd
          · intro h2; exact absurd h2 hc
        · rw [hres]
          exact ⟨fun _ => ⟨hsome, dt, hmem, hbad⟩, fun _ => ⟨_, rfl⟩⟩
        · intro e _; rw [hres]
    | none =>
        have hok : (manage_consent now req s).2
            = .ok { message := "Согласие успешно обновлено",
                    consent_id := req.client_id ++ "_" ++ req.company,
                    consent := req } := by
          rw [manage_consent, if_neg hcb, hfind]
        refine ⟨?_, ?_, ?_, hrev⟩
        · rw [hok]
          constructor
          · rintro ⟨d, hd⟩; simp at hd
          · intro h2; exact absurd h2 hc
        · rw [hok]
          constructor
          · rintro ⟨d, hd⟩; simp at hd
          · rintro ⟨-, dt, hmem, hbad⟩
            have := List.find?_eq_none.1 hfind dt hmem
            simp only [decide_eq_true_eq] at this
            exact absurd hbad this
        · intro e he; rw [hok] at he; simp at he

/-- Witness for C5 (amended): at an unknown client with a bad data type the
call fails NotFound (not InvalidArgument) and leaves the state unchanged. -/
theorem claim_C5_witness :
    ((∃ d, (manage_consent 0
        { client_id := "ghost", company := "Retail Analytics Pro",
          data_types := ["bogus"], is_active := true } emptyState).2
        = .error (.notFound d))
      ↔ dbLookup client_profiles_db "ghost" = none) ∧
    ((∃ d, (manage_consent 0
        { client_id := "ghost", company := "Retail Analytics Pro",
          data_types := ["bogus"], is_active := true } emptyState).2
        = .error (.invalidArgument d))
      ↔ ((dbLookup client_profiles_db "ghost").isSome ∧
          ∃ dt ∈ ["bogus"], dt ∉ AVAILABLE_DATA_TYPES)) :=
  ⟨(claim_C5_amended_error_contract 0
      { client_id := "ghost", company := "Retail Analytics Pro",
        data_types := ["bogus"], is_active := true } "k" emptyState).1,
    (claim_C5_amended_error_contract 0
      { client_id := "ghost", company := "Retail Analytics Pro",
        data_types := ["bogus"], is_active := true } "k" emptyState).2.1⟩

/-- C5 counterexample: for an unknown client carrying an invalid data type,
the call fails with NotFound and not with InvalidArgument, so "fails with
InvalidArgument if and only if some entry of data_types is outside the set"
is false as stated. -/
theorem claim_C5_counterexample :
    ("bogus" ∉ AVAILABLE_DATA_TYPES) ∧
    (manage_consent 0
        { client_id := "ghost", company := "Retail Analytics Pro",
          data_types := ["bogus"], is_active := true } emptyState).2
      = .error (.notFound "Клиент не найден") ∧
    ∀ d, (manage_consent 0
        { client_id := "ghost", company := "Retail Analytics Pro",
          data_types := ["bogus"], is_active := true } emptyState).2
      ≠ .error (.invalidArgument d) := by
  refine ⟨by decide, rfl, ?_⟩
  intro d h
  rw [show (manage_consent 0
      { client_id := "ghost", company := "Retail Analytics Pro",
        data_types := ["bogus"], is_active := true } emptyState).2
    = .error (.notFound "Клиент не найден") from rfl] at h
  simp at h

/-! ### Claim C6: the aggregate read path -/

/-- C6: the aggregate read fails with InvalidArgument exactly when the
company is outside the fixed partner list; for a listed company it returns
all stored datasets whose company field matches (across all clients and
kinds), and when none matches it returns the no-data response carrying the
descriptive message and an empty list rather than an error. -/
theorem claim_C6_aggregate_read (company : String) (s : ApiState) :
    ((∃ d, get_aggregated_data company s = .error (.invalidArgument d))
        ↔ company ∉ COMPANIES) ∧
    (company ∈ COMPANIES →
      ∃ r, get_aggregated_data company s = .ok r ∧
        r.payload = companyData company s ∧
        (companyData company s = []
          → r = .noData "Нет доступных данных для этой компании" [])) := by
  by_cases hm : company ∈ COMPANIES
  · constructor
    · constructor
      · rintro ⟨d, hd⟩
        by_cases he : (companyData company s).isEmpty
        · rw [get_aggregated_data, if_pos hm, if_pos he] at hd
          simp at hd
        · rw [get_aggregated_data, if_pos hm, if_neg he] at hd
          simp at hd
      · intro h; exact absurd hm h
    · intro _
      by_cases he : (companyData company s).isEmpty
      · refine ⟨.noData "Нет доступных данных для этой компании" [],
          ?_, ?_, fun _ => rfl⟩
        · rw [get_aggregated_data, if_pos hm, if_pos he]
        · have h0 : companyData company s = [] := by
            simpa using he
          simp [AggReadResult.payload, h0]
      · refine ⟨.found company (companyData company s).length
            (companyData company s), ?_, rfl, ?_⟩
        · rw [get_aggregated_data, if_pos hm, if_neg he]
        · intro h0; rw [h0] at he; simp at he
  · constructor
    · exact ⟨fun _ => hm,
        fun _ => ⟨"Компания не найдена",
          by rw [get_aggregated_data, if_neg hm]⟩⟩
    · intro h; exact absurd h hm

/-- Witness for C6: a listed company over the empty state returns the
no-data response. -/
theorem claim_C6_witness :
    ∃ r, get_aggregated_data "FinTech Insights" emptyState = .ok r ∧
      r.payload = companyData "FinTech Insights" emptyState ∧
      (companyData "FinTech Insights" emptyState = []
        → r = .noData "Нет доступных данных для этой компании" []) :=
  (claim_C6_aggregate_read "FinTech Insights" emptyState).2 (by decide)

/-! ### Success-path computation helpers -/

theorem find_none_of_valid {dts : List String}
    (h : ∀ dt ∈ dts, dt ∈ AVAILABLE_DATA_TYPES) :
    dts.find? (fun dt => decide (dt ∉ AVAILABLE_DATA_TYPES)) = none := by
  apply List.find?_eq_none.2
  intro dt hm
  simp only [decide_eq_true_eq, Decidable.not_not]
  exact h dt hm

theorem manage_consent_ok_active (now : Nat) (req : ConsentRequest)
    (s : ApiState)
    (hc : ¬ ((dbLookup client_profiles_db req.client_id).isNone = true))
    (hfind : req.data_types.find?
      (fun dt => decide (dt ∉ AVAILABLE_DATA_TYPES)) = none)
    (hact : req.is_active = true) :
    manage_consent now req s =
      (generate_aggregated_data now req.client_id req.company
        { s with consents_db := (dbInsert s.consents_db
            (req.client_id ++ "_" ++ req.company) req) },
       .ok { message := "Согласие успешно обновлено",
             consent_id := req.client_id ++ "_" ++ req.company,
             consent := req }) := by
  simp only [decide_not] at hfind
  simp [manage_consent, hc, hfind, hact]

theorem manage_consent_ok_inactive (now : Nat) (req : ConsentRequest)
    (s : ApiState)
    (hc : ¬ ((dbLookup client_profiles_db req.client_id).isNone = true))
    (hfind : req.data_types.find?
      (fun dt => decide (dt ∉ AVAILABLE_DATA_TYPES)) = none)
    (hact : req.is_active = false) :
    manage_consent now req s =
      ({ s with consents_db := (dbInsert s.consents_db
           (req.client_id ++ "_" ++ req.company) req) },
       .ok { message := "Согласие успешно обновлено",
             consent_id := req.client_id ++ "_" ++ req.company,
             consent := req }) := by
  simp only [decide_not] at hfind
  simp [manage_consent, hc, hfind, hact]

theorem generate_aggregated_data_eq (now : Nat) (cid company : String)
    (p : ClientProfile) (s : ApiState)
    (hp : dbLookup client_profiles_db cid = some p) :
    generate_aggregated_data now cid company s =
      { s with aggregated_data_db :=
          (dbInsert
            (dbInsert
              (dbInsert s.aggregated_data_db
                ((cid ++ "_" ++ company) ++ "_categories")
                (categoriesDataset now company p))
              ((cid ++ "_" ++ company) ++ "_average")
              (averageDataset now company p))
            ((cid ++ "_" ++ company) ++ "_demographics")
            (demographicsDataset now company p)) } := by
  simp [generate_aggregated_data, hp]

theorem categoriesDataset_company (now : Nat) (company : String)
    (p : ClientProfile) : (categoriesDataset now company p).company = company :=
  rfl

theorem averageDataset_company (now : Nat) (company : String)
    (p : ClientProfile) : (averageDataset now company p).company = company :=
  rfl

theorem demographicsDataset_company (now : Nat) (company : String)
    (p : ClientProfile) :
    (demographicsDataset now company p).company = company :=
  rfl

theorem key_cat_ne_avg (k : String) : k ++ "_categories" ≠ k ++ "_average" :=
  append_ne_of_length_ne k (by decide)

theorem key_cat_ne_demo (k : String) :
    k ++ "_categories" ≠ k ++ "_demographics" :=
  append_ne_of_length_ne k (by decide)

theorem key_avg_ne_demo (k : String) :
    k ++ "_average" ≠ k ++ "_demographics" :=
  append_ne_of_length_ne k (by decide)

/-! ### Claim C2: upsert-then-read yields the three datasets -/

/-- C2 (amended): for every client in the profile table and every company in
the fixed partner list, upserting an active consent from the empty state and
then reading aggregates for that company returns exactly the client's 3
datasets, whose total-spend figures (`total_spent` of the category dataset,
`total_amount` of the average dataset) equal the sum of the client's
transaction amounts. -/
theorem claim_C2_amended_upsert_then_read (now : Nat) (cid : String)
    (p : ClientProfile) (company : String) (dts : List String)
    (hp : dbLookup client_profiles_db cid = some p)
    (hco : company ∈ COMPANIES)
    (hdts : ∀ dt ∈ dts, dt ∈ AVAILABLE_DATA_TYPES) :
    (∃ resp, (manage_consent now
        { client_id := cid, company := company, data_types := dts,
          is_active := true } emptyState).2 = .ok resp) ∧
    get_aggregated_data company
        (manage_consent now
          { client_id := cid, company := company, data_types := dts,
            is_active := true } emptyState).1
      = .ok (.found company 3
          [categoriesDataset now company p, averageDataset now company p,
           demographicsDataset now company p]) ∧
    dbLookup (categoriesDataset now company p).metrics "total_spent"
      = some (.num (totalAmount p.transactions)) ∧
    dbLookup (averageDataset now company p).metrics "total_amount"
      = some (.num (totalAmount p.transactions)) := by
  have hcb : ¬ ((dbLookup client_profiles_db
      ({ client_id := cid, company := company, data_types := dts,
         is_active := true } : ConsentRequest).client_id).isNone = true) := by
    simp [hp]
  have hmc := manage_consent_ok_active now
    { client_id := cid, company := company, data_types := dts,
      is_active := true } emptyState hcb (find_none_of_valid hdts) rfl
  have hdb : (manage_consent now
      { client_id := cid, company := company, data_types := dts,
        is_active := true } emptyState).1.aggregated_data_db
      = [((cid ++ "_" ++ company) ++ "_categories",
          categoriesDataset now company p),
         ((cid ++ "_" ++ company) ++ "_average",
          averageDataset now company p),
         ((cid ++ "_" ++ company) ++ "_demographics",
          demographicsDataset now company p)] := by
    rw [hmc]
    dsimp only
    rw [generate_aggregated_data_eq now cid company p _ hp]
    simp [dbInsert, emptyState, key_cat_ne_avg (cid ++ "_" ++ company),
      key_cat_ne_demo (cid ++ "_" ++ company),
      key_avg_ne_demo (cid ++ "_" ++ company)]
  have hcd : companyData company
      (manage_consent now
        { client_id := cid, company := company, data_types := dts,
          is_active := true } emptyState).1
      = [categoriesDataset now company p, averageDataset now company p,
         demographicsDataset now company p] := by
    simp [companyData, hdb, categoriesDataset_company, averageDataset_company,
      demographicsDataset_company]
  refine ⟨⟨_, congrArg Prod.snd hmc⟩, ?_, rfl, rfl⟩
  simp [get_aggregated_data, hco, hcd]

/-- Witness for C2 (amended): instantiated at `client_1`, the listed company
`Retail Analytics Pro` and a singleton valid data-type list. -/
theorem claim_C2_witness :
    (∃ resp, (manage_consent 0
        { client_id := "client_1", company := "Retail Analytics Pro",
          data_types := ["average_bill"], is_active := true } emptyState).2
      = .ok resp) ∧
    get_aggregated_data "Retail Analytics Pro"
        (manage_consent 0
          { client_id := "client_1", company := "Retail Analytics Pro",
            data_types := ["average_bill"], is_active := true } emptyState).1
      = .ok (.found "Retail Analytics Pro" 3
          [categoriesDataset 0 "Retail Analytics Pro" client1Profile,
           averageDataset 0 "Retail Analytics Pro" client1Profile,
           demographicsDataset 0 "Retail Analytics Pro" client1Profile]) ∧
    dbLookup (categoriesDataset 0 "Retail Analytics Pro" client1Profile).metrics
      "total_spent" = some (.num (totalAmount client1Profile.transactions)) ∧
    dbLookup (averageDataset 0 "Retail Analytics Pro" client1Profile).metrics
      "total_amount" = some (.num (totalAmount client1Profile.transactions)) :=
  claim_C2_amended_upsert_then_read 0 "client_1" client1Profile
    "Retail Analytics Pro" ["average_bill"] rfl (by decide) (by decide)

/-- C2 counterexample: the claim as stated quantifies over every company, but
for a company outside the fixed partner list (here "Globex") the upsert
succeeds while the subsequent aggregate read fails with InvalidArgument
instead of returning 3 datasets. -/
theorem claim_C2_counterexample :
    dbLookup client_profiles_db "client_1" = some client1Profile ∧
    ("Globex" ∉ COMPANIES) ∧
    (∃ resp, (manage_consent 0
        { client_id := "client_1", company := "Globex",
          data_types := ["average_bill"], is_active := true } emptyState).2
      = .ok resp) ∧
    get_aggregated_data "Globex"
        (manage_consent 0
          { client_id := "client_1", company := "Globex",
            data_types := ["average_bill"], is_active := true } emptyState).1
      = .error (.invalidArgument "Компания не найдена") :=
  ⟨rfl, by decide, ⟨_, rfl⟩, rfl⟩

/-! ### Claim C7: double upsert replaces, never duplicates -/

/-- C7: performing the active-consent upsert twice for the same
(client, company) pair from the empty state leaves exactly one consent grant
for that pair, carrying the second upsert's data-type list (full
replacement, not a merge), and exactly one set of 3 aggregated datasets for
that pair, regenerated at the second call's timestamp. -/
theorem claim_C7_upsert_twice_replaces (now1 now2 : Nat) (cid : String)
    (p : ClientProfile) (company : String) (dts1 dts2 : List String)
    (hp : dbLookup client_profiles_db cid = some p)
    (h1 : ∀ dt ∈ dts1, dt ∈ AVAILABLE_DATA_TYPES)
    (h2 : ∀ dt ∈ dts2, dt ∈ AVAILABLE_DATA_TYPES) :
    (manage_consent now2
        { client_id := cid, company := company, data_types := dts2,
          is_active := true }
        (manage_consent now1
          { client_id := cid, company := company, data_types := dts1,
            is_active := true } emptyState).1).1.consents_db
      = [(cid ++ "_" ++ company,
          { client_id := cid, company := company, data_types := dts2,
            is_active := true })] ∧
    (manage_consent now2
        { client_id := cid, company := company, data_types := dts2,
          is_active := true }
        (manage_consent now1
          { client_id := cid, company := company, data_types := dts1,
            is_active := true } emptyState).1).1.aggregated_data_db
      = [((cid ++ "_" ++ company) ++ "_categories",
          categoriesDataset now2 company p),
         ((cid ++ "_" ++ company) ++ "_average",
          averageDataset now2 company p),
         ((cid ++ "_" ++ company) ++ "_demographics",
          demographicsDataset now2 company p)] := by
  have hcb1 : ¬ ((dbLookup client_profiles_db
      ({ client_id := cid, company := company, data_types := dts1,
         is_active := true } : ConsentRequest).client_id).isNone = true) := by
    simp [hp]
  have hcb2 : ¬ ((dbLookup client_profiles_db
      ({ client_id := cid, company := company, data_types := dts2,
         is_active := true } : ConsentRequest).client_id).isNone = true) := by
    simp [hp]
  have hmc1 := manage_consent_ok_active now1
    { client_id := cid, company := company, data_types := dts1,
      is_active := true } emptyState hcb1 (find_none_of_valid h1) rfl
  have hs1 : (manage_consent now1
      { client_id := cid, company := company, data_types := dts1,
        is_active := true } emptyState).1
      = { consents_db := [(cid ++ "_" ++ company,
            { client_id := cid, company := company, data_types := dts1,
              is_active := true })],
          aggregated_data_db :=
            [((cid ++ "_" ++ company) ++ "_categories",
              categoriesDataset now1 company p),
             ((cid ++ "_" ++ company) ++ "_average",
              averageDataset now1 company p),
             ((cid ++ "_" ++ company) ++ "_demographics",
              demographicsDataset now1 company p)] } := by
    rw [hmc1]
    dsimp only
    rw [generate_aggregated_data_eq now1 cid company p _ hp]
    simp [dbInsert, emptyState, key_cat_ne_avg (cid ++ "_" ++ company),
      key_cat_ne_demo (cid ++ "_" ++ company),
      key_avg_ne_demo (cid ++ "_" ++ company)]
  rw [hs1]
  have hmc2 := manage_consent_ok_active now2
    { client_id := cid, company := company, data_types := dts2,
      is_active := true }
    { consents_db := [(cid ++ "_" ++ company,
        { client_id := cid, company := company, data_types := dts1,
          is_active := true })],
      aggregated_data_db :=
        [((cid ++ "_" ++ company) ++ "_categories",
          categoriesDataset now1 company p),
         ((cid ++ "_" ++ company) ++ "_average",
          averageDataset now1 company p),
         ((cid ++ "_" ++ company) ++ "_demographics",
          demographicsDataset now1 company p)] }
    hcb2 (find_none_of_valid h2) rfl
  rw [hmc2]
  dsimp only
  rw [generate_aggregated_data_eq now2 cid company p _ hp]
  constructor
  · simp [dbInsert]
  · simp [dbInsert, key_cat_ne_avg (cid ++ "_" ++ company),
      key_cat_ne_demo (cid ++ "_" ++ company),
      key_avg_ne_demo (cid ++ "_" ++ company),
      Ne.symm (key_cat_ne_avg (cid ++ "_" ++ company)),
      Ne.symm (key_cat_ne_demo (cid ++ "_" ++ company)),
      Ne.symm (key_avg_ne_demo (cid ++ "_" ++ company))]

/-- Witness for C7: instantiated at `client_1`, `Retail Analytics Pro`, and
two different valid data-type lists. -/
theorem claim_C7_witness :
    (manage_consent 1
        { client_id := "client_1", company := "Retail Analytics Pro",
          data_types := ["average_bill"], is_active := true }
        (manage_consent 0
          { client_id := "client_1", company := "Retail Analytics Pro",
            data_types := ["category_spending"], is_active := true }
          emptyState).1).1.consents_db
      = [("client_1_Retail Analytics Pro",
          { client_id := "client_1", company := "Retail Analytics Pro",
            data_types := ["average_bill"], is_active := true })] ∧
    (manage_consent 1
        { client_id := "client_1", company := "Retail Analytics Pro",
          data_types := ["average_bill"], is_active := true }
        (manage_consent 0
          { client_id := "client_1", company := "Retail Analytics Pro",
            data_types := ["category_spending"], is_active := true }
          emptyState).1).1.aggregated_data_db
      = [("client_1_Retail Analytics Pro" ++ "_categories",
          categoriesDataset 1 "Retail Analytics Pro" client1Profile),
         ("client_1_Retail Analytics Pro" ++ "_average",
          averageDataset 1 "Retail Analytics Pro" client1Profile),
         ("client_1_Retail Analytics Pro" ++ "_demographics",
          demographicsDataset 1 "Retail Analytics Pro" client1Profile)] :=
  claim_C7_upsert_twice_replaces 0 1 "client_1" client1Profile
    "Retail Analytics Pro" ["category_spending"] ["average_bill"] rfl
    (by decide) (by decide)

/-! ### Claim C8: an inactive upsert never touches the aggregates -/

/-- C8: upserting a consent with is_active = false for a known client with
valid data types succeeds and stores the grant, while the aggregate table is
returned exactly as it was: nothing is generated and nothing is removed. -/
theorem claim_C8_inactive_upsert_frame (now : Nat) (req : ConsentRequest)
    (s : ApiState) (hact : req.is_active = false)
    (hc : (dbLookup client_profiles_db req.client_id).isSome)
    (hdts : ∀ dt ∈ req.data_types, dt ∈ AVAILABLE_DATA_TYPES) :
    (manage_consent now req s).1.aggregated_data_db = s.aggregated_data_db ∧
    (manage_consent now req s).1.consents_db
      = dbInsert s.consents_db (req.client_id ++ "_" ++ req.company) req ∧
    ∃ resp, (manage_consent now req s).2 = .ok resp := by
  have hcb : ¬ ((dbLookup client_profiles_db req.client_id).isNone = true) := by
    rcases Option.isSome_iff_exists.1 hc with ⟨q, hq⟩
    rw [hq]
    simp
  have hmc := manage_consent_ok_inactive now req s hcb
    (find_none_of_valid hdts) hact
  exact ⟨by rw [hmc], by rw [hmc], ⟨_, congrArg Prod.snd hmc⟩⟩

/-- Witness for C8: an inactive upsert for `client_2` over a state already
holding one aggregate record leaves the aggregate table untouched. -/
theorem claim_C8_witness :
    (manage_consent 5
        { client_id := "client_2", company := "Market Research Co",
          data_types := ["geography"], is_active := false }
        { consents_db := [],
          aggregated_data_db :=
            [("client_1_Retail Analytics Pro_categories",
              categoriesDataset 0 "Retail Analytics Pro" client1Profile)] }
        ).1.aggregated_data_db
      = [("client_1_Retail Analytics Pro_categories",
          categoriesDataset 0 "Retail Analytics Pro" client1Profile)] ∧
    (manage_consent 5
        { client_id := "client_2", company := "Market Research Co",
          data_types := ["geography"], is_active := false }
        { consents_db := [],
          aggregated_data_db :=
            [("client_1_Retail Analytics Pro_categories",
              categoriesDataset 0 "Retail Analytics Pro" client1Profile)] }
        ).1.consents_db
      = dbInsert [] ("client_2" ++ "_" ++ "Market Research Co")
          { client_id := "client_2", company := "Market Research Co",
            data_types := ["geography"], is_active := false } :=
  ⟨(claim_C8_inactive_upsert_frame 5
      { client_id := "client_2", company := "Market Research Co",
        data_types := ["geography"], is_active := false } _ rfl (by decide)
      (by decide)).1,
    (claim_C8_inactive_upsert_frame 5
      { client_id := "client_2", company := "Market Research Co",
        data_types := ["geography"], is_active := false } _ rfl (by decide)
      (by decide)).2.1⟩

/-! ### Claim C10: the upsert never validates the company -/

/-- C10: for a known client and valid data types, an active upsert naming a
company outside the fixed partner list succeeds and stores the client's 3
datasets for that company, yet the company aggregate read rejects that very
company with InvalidArgument, so those datasets can never be served. -/
theorem claim_C10_company_unvalidated (now : Nat) (cid : String)
    (p : ClientProfile) (company : String) (dts : List String) (s : ApiState)
    (hp : dbLookup client_profiles_db cid = some p)
    (hdts : ∀ dt ∈ dts, dt ∈ AVAILABLE_DATA_TYPES)
    (hco : company ∉ COMPANIES) :
    (∃ resp, (manage_consent now
        { client_id := cid, company := company, data_types := dts,
          is_active := true } s).2 = .ok resp) ∧
    dbLookup (manage_consent now
        { client_id := cid, company := company, data_types := dts,
          is_active := true } s).1.aggregated_data_db
        ((cid ++ "_" ++ company) ++ "_categories")
      = some (categoriesDataset now company p) ∧
    dbLookup (manage_consent now
        { client_id := cid, company := company, data_types := dts,
          is_active := true } s).1.aggregated_data_db
        ((cid ++ "_" ++ company) ++ "_average")
      = some (averageDataset now company p) ∧
    dbLookup (manage_consent now
        { client_id := cid, company := company, data_types := dts,
          is_active := true } s).1.aggregated_data_db
        ((cid ++ "_" ++ company) ++ "_demographics")
      = some (demographicsDataset now company p) ∧
    get_aggregated_data company (manage_consent now
        { client_id := cid, company := company, data_types := dts,
          is_active := true } s).1
      = .error (.invalidArgument "Компания не найдена") := by
  have hcb : ¬ ((dbLookup client_profiles_db
      ({ client_id := cid, company := company, data_types := dts,
         is_active := true } : ConsentRequest).client_id).isNone = true) := by
    simp [hp]
  have hmc := manage_consent_ok_active now
    { client_id := cid, company := company, data_types := dts,
      is_active := true } s hcb (find_none_of_valid hdts) rfl
  have hdb : (manage_consent now
      { client_id := cid, company := company, data_types := dts,
        is_active := true } s).1.aggregated_data_db
      = dbInsert
          (dbInsert
            (dbInsert s.aggregated_data_db
              ((cid ++ "_" ++ company) ++ "_categories")
              (categoriesDataset now company p))
            ((cid ++ "_" ++ company) ++ "_average")
            (averageDataset now company p))
          ((cid ++ "_" ++ company) ++ "_demographics")
          (demographicsDataset now company p) := by
    rw [hmc]
    dsimp only
    rw [generate_aggregated_data_eq now cid company p _ hp]
  refine ⟨⟨_, congrArg Prod.snd hmc⟩, ?_, ?_, ?_, ?_⟩
  · rw [hdb,
      dbLookup_dbInsert_ne _ _ (key_cat_ne_demo (cid ++ "_" ++ company)),
      dbLookup_dbInsert_ne _ _ (key_cat_ne_avg (cid ++ "_" ++ company)),
      dbLookup_dbInsert_self]
  · rw [hdb,
      dbLookup_dbInsert_ne _ _ (key_avg_ne_demo (cid ++ "_" ++ company)),
      dbLookup_dbInsert_self]
  · rw [hdb, dbLookup_dbInsert_self]
  · rw [get_aggregated_data, if_neg hco]

/-- Witness for C10: instantiated at `client_3` and the unlisted company
"EvilCorp" over the empty state. -/
theorem claim_C10_witness :
    dbLookup (manage_consent 0
        { client_id := "client_3", company := "EvilCorp",
          data_types := ["geography"], is_active := true } emptyState
        ).1.aggregated_data_db
      (("client_3" ++ "_" ++ "EvilCorp") ++ "_categories")
      = some (categoriesDataset 0 "EvilCorp" client3Profile) ∧
    get_aggregated_data "EvilCorp" (manage_consent 0
        { client_id := "client_3", company := "EvilCorp",
          data_types := ["geography"], is_active := true } emptyState).1
      = .error (.invalidArgument "Компания не найдена") :=
  ⟨(claim_C10_company_unvalidated 0 "client_3" client3Profile "EvilCorp"
      ["geography"] emptyState rfl (by decide) (by decide)).2.1,
    (claim_C10_company_unvalidated 0 "client_3" client3Profile "EvilCorp"
      ["geography"] emptyState rfl (by decide) (by decide)).2.2.2.2⟩
